import Mathlib

/-!
Shallow embedding of `scripts/main.py` from the
mental-health-daily-awareness-bot repository.

The script is a four-stage sequential pipeline:
`fetch_trending_topic` → `generate_script` → `create_video_from_script`
→ `post_to_instagram`, orchestrated by `main`.  All network calls in the
source are commented-out placeholders; the only effects are raising on a
missing credential and writing two local files.  We model:

* the process environment as a record of `Option String` values, one per
  environment variable the script reads (`os.getenv` returns `None` when a
  variable is unset);
* the filesystem as an association list from path to file contents, where
  opening a file in mode `"w"`/`"wb"` truncates, so a write replaces any
  previous entry at that path (`os.makedirs(..., exist_ok=True)` only
  creates directories, never files, so it is the identity on this store);
* a chronological event trace recording every stage invocation with its
  arguments and every file write — the source contains no live network
  code, so no network event can occur;
* Python exceptions as `Except`: each stage returns
  `Except Err α × World`, the returned `World` being the state at the
  moment of the return or the raise.

Python truthiness on the credential values (`if not CHATGPT_API_KEY`)
treats both an unset variable (`None`) and an empty string as missing.
-/

/-- Truthiness test used by the source's credential checks: `not x` in
Python is true when the variable is unset (`None`) or the empty string. -/
def falsy : Option String → Bool
  | none => true
  | some s => s.isEmpty

/-- `os.getenv(name, default)`: the stored value when the variable is set
(even if empty), otherwise the default. -/
def getenvD : Option String → String → String
  | none, d => d
  | some s, _ => s

/-- The process environment: one field per environment variable read by
`scripts/main.py` via `os.getenv`. -/
structure Env where
  OPENAI_API_KEY : Option String
  PERPLEXITY_API_KEY : Option String
  HEYGEN_API_KEY : Option String
  FLEXCLIP_API_KEY : Option String
  IG_USERNAME : Option String
  IG_PASSWORD : Option String
  OPENAI_MODEL : Option String
  OUTPUT_DIR : Option String
  TREND_SOURCE : Option String
  TREND_REGION : Option String
  VIDEO_PROVIDER : Option String

/-- `CHATGPT_API_KEY = os.getenv("OPENAI_API_KEY")` — the trending-topic
stage reads the same variable as the script-generation stage. -/
def CHATGPT_API_KEY (env : Env) : Option String := env.OPENAI_API_KEY

/-- `PERPLEXITY_API_KEY = os.getenv("PERPLEXITY_API_KEY")`. -/
def PERPLEXITY_API_KEY (env : Env) : Option String := env.PERPLEXITY_API_KEY

/-- `OPENAI_API_KEY = os.getenv("OPENAI_API_KEY")`. -/
def OPENAI_API_KEY (env : Env) : Option String := env.OPENAI_API_KEY

/-- `HEYGEN_API_KEY = os.getenv("HEYGEN_API_KEY")`. -/
def HEYGEN_API_KEY (env : Env) : Option String := env.HEYGEN_API_KEY

/-- `FLEXCLIP_API_KEY = os.getenv("FLEXCLIP_API_KEY")`. -/
def FLEXCLIP_API_KEY (env : Env) : Option String := env.FLEXCLIP_API_KEY

/-- `INSTAGRAM_USERNAME = os.getenv("IG_USERNAME")`. -/
def INSTAGRAM_USERNAME (env : Env) : Option String := env.IG_USERNAME

/-- `INSTAGRAM_PASSWORD = os.getenv("IG_PASSWORD")`. -/
def INSTAGRAM_PASSWORD (env : Env) : Option String := env.IG_PASSWORD

/-- `OUTPUT_DIR = os.getenv("OUTPUT_DIR", "./outputs")`. -/
def OUTPUT_DIR (env : Env) : String := getenvD env.OUTPUT_DIR "./outputs"

/-- `VIDEO_PATH = os.path.join(OUTPUT_DIR, "daily_mental_health.mp4")`
(POSIX join for a directory not ending in a separator). -/
def VIDEO_PATH (env : Env) : String :=
  OUTPUT_DIR env ++ "/daily_mental_health.mp4"

/-- `SCRIPT_PATH = os.path.join(OUTPUT_DIR, "script.txt")`. -/
def SCRIPT_PATH (env : Env) : String := OUTPUT_DIR env ++ "/script.txt"

/-- Contents of a file: text written through mode `"w"` (a string) or
binary written through mode `"wb"` (a byte list). -/
inductive FileData where
  | text (s : String)
  | bin (b : List Nat)
deriving DecidableEq, Repr

/-- The byte string `b"FAKE_MP4_DATA"` the stub writes as video data
(ASCII codes of the thirteen characters). -/
def fakeMp4Data : List Nat :=
  [70, 65, 75, 69, 95, 77, 80, 52, 95, 68, 65, 84, 65]

/-- The filesystem: newest binding first, one entry per path. -/
abbrev FS : Type := List (String × FileData)

/-- Read a file: the most recent binding for the path, if any. -/
def readFS (fs : FS) (p : String) : Option FileData :=
  List.lookup p fs

/-- Write a file through mode `"w"`/`"wb"`: the file is truncated, so the
new contents replace any previous binding for the path. -/
def writeFS (fs : FS) (p : String) (d : FileData) : FS :=
  (p, d) :: List.filter (fun e => e.1 != p) fs

/-- An observable event of a run: a stage invocation with its arguments,
or a file write.  The source performs no live network request (all API
calls are commented-out placeholders), so no network event exists. -/
inductive Ev where
  | callFetch (source : String) (region : Option String)
  | callGen (topic : String)
  | callVideo (script : String) (provider : String)
  | callPost (video_path : String) (caption : String)
  | fwrite (path : String) (data : FileData)
deriving DecidableEq, Repr

/-- Mutable world threaded through the pipeline: the file store and the
chronological event trace. -/
structure World where
  fs : FS
  events : List Ev
deriving DecidableEq, Repr

/-- Append one event to the trace. -/
def World.log (w : World) (e : Ev) : World :=
  { w with events := w.events ++ [e] }

/-- Perform a file write: update the store and record the event. -/
def World.write (w : World) (p : String) (d : FileData) : World :=
  { fs := writeFS w.fs p d, events := w.events ++ [Ev.fwrite p d] }

/-- Python exceptions raised by the script: `RuntimeError` for a missing
credential, `ValueError` for an unknown provider selector. -/
inductive Err where
  | runtimeError (msg : String)
  | valueError (msg : String)
deriving DecidableEq, Repr

/-- The topic string the `"chatgpt"` branch of `fetch_trending_topic`
returns (the hardcoded placeholder at line 86). -/
def chatgptTopic : String := "Mindful breathing for anxiety management"

/-- The topic string the `"perplexity"` branch returns (line 105). -/
def perplexityTopic : String :=
  "Journaling prompts to combat seasonal affective disorder"

/-- `fetch_trending_topic(source, region)`: dispatch on the source
selector, check the selected provider's credential, return the stub
topic; any other selector raises `ValueError`.  The `prompt` string is
built (as in the source) but unused by the stub. -/
def fetch_trending_topic (env : Env) (source : String)
    (region : Option String) (w : World) : Except Err String × World :=
  let w := w.log (Ev.callFetch source region)
  let prompt :=
    "You are a trend researcher. Provide ONE concise trending mental health topic "
    ++ (match region with
        | some r => "relevant to " ++ r ++ ". "
        | none => "")
    ++ "Return ONLY the topic title without extra sentences."
  let _ := prompt
  if source = "chatgpt" then
    if falsy (CHATGPT_API_KEY env) then
      (Except.error (Err.runtimeError
        "Missing OPENAI_API_KEY for ChatGPT trending topic fetch."), w)
    else
      (Except.ok chatgptTopic, w)
  else if source = "perplexity" then
    if falsy (PERPLEXITY_API_KEY env) then
      (Except.error (Err.runtimeError
        "Missing PERPLEXITY_API_KEY for Perplexity trending topic fetch."), w)
    else
      (Except.ok perplexityTopic, w)
  else
    (Except.error (Err.valueError
      "source must be \x27chatgpt\x27 or \x27perplexity\x27"), w)

/-- Text of the f-string before the spliced topic in the stub script
(line 150 of the source). -/
def scriptPre : String := "[Hook] Let’s talk about "

/-- Text of the stub script after the spliced topic (lines 150–156). -/
def scriptSuf : String :=
  "—in under a minute.\n"
  ++ "Tip 1: Start with one deep breath: in for 4, out for 6.\n"
  ++ "Tip 2: Name what you feel—labeling lowers intensity.\n"
  ++ "Tip 3: Try a 2-minute body scan to release tension.\n"
  ++ "You’re not alone—progress is messy and still progress.\n"
  ++ "If you’re struggling, consider reaching out to a licensed professional.\n"
  ++ "Follow for more daily mental health support."

/-- The stub narration script for a topic: the fixed template with the
topic spliced into the hook line. -/
def scriptText (topic : String) : String := scriptPre ++ topic ++ scriptSuf

/-- `generate_script(topic)`: check `OPENAI_API_KEY`, build the stub
script, write it to `SCRIPT_PATH` (mode `"w"`), and return it. -/
def generate_script (env : Env) (topic : String) (w : World) :
    Except Err String × World :=
  let w := w.log (Ev.callGen topic)
  if falsy (OPENAI_API_KEY env) then
    (Except.error (Err.runtimeError
      "Missing OPENAI_API_KEY for script generation."), w)
  else
    let script := scriptText topic
    let w := w.write (SCRIPT_PATH env) (FileData.text script)
    (Except.ok script, w)

/-- `create_video_from_script(script, provider)`: `os.makedirs` touches
only directories (identity on the file store); dispatch on the provider,
check its credential, write the placeholder bytes to `VIDEO_PATH` (mode
`"wb"`), return the path; any other selector raises `ValueError`. -/
def create_video_from_script (env : Env) (script : String)
    (provider : String) (w : World) : Except Err String × World :=
  let w := w.log (Ev.callVideo script provider)
  if provider = "heygen" then
    if falsy (HEYGEN_API_KEY env) then
      (Except.error (Err.runtimeError
        "Missing HEYGEN_API_KEY for video creation."), w)
    else
      let w := w.write (VIDEO_PATH env) (FileData.bin fakeMp4Data)
      (Except.ok (VIDEO_PATH env), w)
  else if provider = "flexclip" then
    if falsy (FLEXCLIP_API_KEY env) then
      (Except.error (Err.runtimeError
        "Missing FLEXCLIP_API_KEY for video creation."), w)
    else
      let w := w.write (VIDEO_PATH env) (FileData.bin fakeMp4Data)
      (Except.ok (VIDEO_PATH env), w)
  else
    (Except.error (Err.valueError
      "provider must be \x27heygen\x27 or \x27flexclip\x27"), w)

/-- The status record returned by `post_to_instagram`:
`{"ok": True, "result": {"message": ..., "path": video_path}}`. -/
structure IgResult where
  ok : Bool
  message : String
  path : String
deriving DecidableEq, Repr

/-- `post_to_instagram(video_path, caption)`: check both Instagram
credentials, then return the simulated success record.  The stub never
opens `video_path`: no filesystem access occurs. -/
def post_to_instagram (env : Env) (video_path : String) (caption : String)
    (w : World) : Except Err IgResult × World :=
  let w := w.log (Ev.callPost video_path caption)
  if falsy (INSTAGRAM_USERNAME env) || falsy (INSTAGRAM_PASSWORD env) then
    (Except.error (Err.runtimeError
      "Missing IG_USERNAME/IG_PASSWORD for Instagram posting."), w)
  else
    (Except.ok
      { ok := true, message := "Simulated upload complete",
        path := video_path }, w)

/-- The caption `main` builds for the post:
`f"Daily Mental Health: {topic}\n\nFollow for more supportive tips."`. -/
def captionFor (topic : String) : String :=
  "Daily Mental Health: " ++ topic ++ "\n\nFollow for more supportive tips."

namespace Bot

/-- `main()`: run the four stages in order, each stage's result feeding
the next; an uncaught exception aborts the run.  The `print` calls are
omitted (they carry no state).  (Namespaced because a top-level Lean
`main` must have an entry-point type.) -/
def main (env : Env) (w : World) : Except Err IgResult × World :=
  match fetch_trending_topic env (getenvD env.TREND_SOURCE "chatgpt")
      env.TREND_REGION w with
  | (Except.error e, w) => (Except.error e, w)
  | (Except.ok topic, w) =>
    match generate_script env topic w with
    | (Except.error e, w) => (Except.error e, w)
    | (Except.ok script, w) =>
      match create_video_from_script env script
          (getenvD env.VIDEO_PROVIDER "heygen") w with
      | (Except.error e, w) => (Except.error e, w)
      | (Except.ok video_path, w) =>
        let caption := captionFor topic
        post_to_instagram env video_path caption w

end Bot

/-- Helper for `wordCount`: counts word starts in a character stream; the
flag records whether the previous character was inside a word. -/
def wordCountAux : List Char → Bool → Nat
  | [], _ => 0
  | c :: cs, inWord =>
    if c.isWhitespace then wordCountAux cs false
    else (if inWord then 0 else 1) + wordCountAux cs true

/-- Word count in Python's `str.split()` sense: number of maximal
nonempty runs of non-whitespace characters. -/
def wordCount (s : String) : Nat := wordCountAux s.toList false

/-!  Concrete environments and worlds used by witnesses and
counterexamples. -/

/-- Environment with every variable unset. -/
def env0 : Env :=
  ⟨none, none, none, none, none, none, none, none, none, none, none⟩

/-- Environment with all four credential sets present and every selector
left to its default. -/
def envAll : Env :=
  ⟨some "ok", some "pk", some "hk", some "fk", some "u", some "p",
   none, none, none, none, none⟩

/-- Fully credentialed environment selecting the `"chatgpt"` topic
source. -/
def envChat : Env :=
  ⟨some "ok", some "pk", some "hk", some "fk", some "u", some "p",
   none, none, some "chatgpt", none, none⟩

/-- Fully credentialed environment selecting the `"perplexity"` topic
source. -/
def envPerp : Env :=
  ⟨some "ok", some "pk", some "hk", some "fk", some "u", some "p",
   none, none, some "perplexity", none, none⟩

/-- Initial world: empty file store, empty trace. -/
def w0 : World := ⟨[], []⟩

/-- A world holding one pre-existing video file. -/
def wFile : World := ⟨[("v.mp4", FileData.bin fakeMp4Data)], []⟩

/-- The caption arguments the publisher stage received during a run, in
order. -/
def postCaptions (evs : List Ev) : List String :=
  evs.filterMap fun e =>
    match e with
    | Ev.callPost _ c => some c
    | _ => none

/-- The video-path arguments the publisher stage received during a run,
in order. -/
def postPaths (evs : List Ev) : List String :=
  evs.filterMap fun e =>
    match e with
    | Ev.callPost p _ => some p
    | _ => none

/-- The script and video output paths always differ (their fixed file
names differ, whatever `OUTPUT_DIR` is). -/
lemma script_ne_video (env : Env) : SCRIPT_PATH env ≠ VIDEO_PATH env := by
  intro h
  have hl := congrArg String.length h
  simp [SCRIPT_PATH, VIDEO_PATH, String.length_append] at hl
  exact absurd hl (by decide)

/-- Claim C1: each of the four stage functions, invoked while its
credential variable is unset or empty, raises a `RuntimeError` whose
message names the missing variable, with the file store unchanged and no
write event recorded (the returned world extends the trace by the call
event alone; the source contains no live network code at all). -/
theorem claim_C1 (env : Env) (w : World) (region : Option String)
    (topic s video_path caption : String) :
    (falsy (CHATGPT_API_KEY env) = true →
      fetch_trending_topic env "chatgpt" region w =
        (Except.error (Err.runtimeError
          "Missing OPENAI_API_KEY for ChatGPT trending topic fetch."),
         w.log (Ev.callFetch "chatgpt" region)) ∧
      "OPENAI_API_KEY".toList <:+:
        "Missing OPENAI_API_KEY for ChatGPT trending topic fetch.".toList) ∧
    (falsy (PERPLEXITY_API_KEY env) = true →
      fetch_trending_topic env "perplexity" region w =
        (Except.error (Err.runtimeError
          "Missing PERPLEXITY_API_KEY for Perplexity trending topic fetch."),
         w.log (Ev.callFetch "perplexity" region)) ∧
      "PERPLEXITY_API_KEY".toList <:+:
        "Missing PERPLEXITY_API_KEY for Perplexity trending topic fetch.".toList) ∧
    (falsy (OPENAI_API_KEY env) = true →
      generate_script env topic w =
        (Except.error (Err.runtimeError
          "Missing OPENAI_API_KEY for script generation."),
         w.log (Ev.callGen topic)) ∧
      "OPENAI_API_KEY".toList <:+:
        "Missing OPENAI_API_KEY for script generation.".toList) ∧
    (falsy (HEYGEN_API_KEY env) = true →
      create_video_from_script env s "heygen" w =
        (Except.error (Err.runtimeError
          "Missing HEYGEN_API_KEY for video creation."),
         w.log (Ev.callVideo s "heygen")) ∧
      "HEYGEN_API_KEY".toList <:+:
        "Missing HEYGEN_API_KEY for video creation.".toList) ∧
    (falsy (FLEXCLIP_API_KEY env) = true →
      create_video_from_script env s "flexclip" w =
        (Except.error (Err.runtimeError
          "Missing FLEXCLIP_API_KEY for video creation."),
         w.log (Ev.callVideo s "flexclip")) ∧
      "FLEXCLIP_API_KEY".toList <:+:
        "Missing FLEXCLIP_API_KEY for video creation.".toList) ∧
    (falsy (INSTAGRAM_USERNAME env) = true ∨
        falsy (INSTAGRAM_PASSWORD env) = true →
      post_to_instagram env video_path caption w =
        (Except.error (Err.runtimeError
          "Missing IG_USERNAME/IG_PASSWORD for Instagram posting."),
         w.log (Ev.callPost video_path caption)) ∧
      "IG_USERNAME".toList <:+:
        "Missing IG_USERNAME/IG_PASSWORD for Instagram posting.".toList ∧
      "IG_PASSWORD".toList <:+:
        "Missing IG_USERNAME/IG_PASSWORD for Instagram posting.".toList) := by
  refine ⟨?_, ?_, ?_, ?_, ?_, ?_⟩
  · intro h
    exact ⟨by simp [fetch_trending_topic, h], by decide⟩
  · intro h
    exact ⟨by simp [fetch_trending_topic, h], by decide⟩
  · intro h
    exact ⟨by simp [generate_script, h], by decide⟩
  · intro h
    exact ⟨by simp [create_video_from_script, h], by decide⟩
  · intro h
    exact ⟨by simp [create_video_from_script, h], by decide⟩
  · intro h
    refine ⟨?_, by decide, by decide⟩
    rcases h with h | h <;> simp [post_to_instagram, h]

/-- Witness for C1 at the all-unset environment. -/
theorem claim_C1_witness :
    (fetch_trending_topic env0 "chatgpt" none w0 =
      (Except.error (Err.runtimeError
        "Missing OPENAI_API_KEY for ChatGPT trending topic fetch."),
       w0.log (Ev.callFetch "chatgpt" none))) ∧
    (fetch_trending_topic env0 "perplexity" none w0 =
      (Except.error (Err.runtimeError
        "Missing PERPLEXITY_API_KEY for Perplexity trending topic fetch."),
       w0.log (Ev.callFetch "perplexity" none))) ∧
    (generate_script env0 "X" w0 =
      (Except.error (Err.runtimeError
        "Missing OPENAI_API_KEY for script generation."),
       w0.log (Ev.callGen "X"))) ∧
    (create_video_from_script env0 "S" "heygen" w0 =
      (Except.error (Err.runtimeError
        "Missing HEYGEN_API_KEY for video creation."),
       w0.log (Ev.callVideo "S" "heygen"))) ∧
    (create_video_from_script env0 "S" "flexclip" w0 =
      (Except.error (Err.runtimeError
        "Missing FLEXCLIP_API_KEY for video creation."),
       w0.log (Ev.callVideo "S" "flexclip"))) ∧
    (post_to_instagram env0 "v.mp4" "cap" w0 =
      (Except.error (Err.runtimeError
        "Missing IG_USERNAME/IG_PASSWORD for Instagram posting."),
       w0.log (Ev.callPost "v.mp4" "cap"))) := by
  have h := claim_C1 env0 w0 none "X" "S" "v.mp4" "cap"
  exact ⟨(h.1 (by decide)).1, (h.2.1 (by decide)).1, (h.2.2.1 (by decide)).1,
    (h.2.2.2.1 (by decide)).1, (h.2.2.2.2.1 (by decide)).1,
    (h.2.2.2.2.2 (Or.inl (by decide))).1⟩

/-- Claim C2: with `OPENAI_API_KEY` set, `generate_script topic` returns
the stub narration, which contains the topic as a substring, and writes
exactly that returned text to `SCRIPT_PATH`. -/
theorem claim_C2 (env : Env) (topic : String) (w : World)
    (h : falsy (OPENAI_API_KEY env) = false) :
    (generate_script env topic w).1 = Except.ok (scriptText topic) ∧
    topic.toList <:+: (scriptText topic).toList ∧
    readFS ((generate_script env topic w).2).fs (SCRIPT_PATH env) =
      some (FileData.text (scriptText topic)) := by
  refine ⟨?_, ⟨scriptPre.toList, scriptSuf.toList, ?_⟩, ?_⟩
  · simp [generate_script, h]
  · simp [scriptText, String.toList, String.data_append]
  · simp [generate_script, h, readFS, writeFS, World.write, List.lookup]

/-- Witness for C2 at a concrete environment and topic. -/
theorem claim_C2_witness :
    falsy (OPENAI_API_KEY envAll) = false ∧
    ((generate_script envAll "X" w0).1 = Except.ok (scriptText "X") ∧
     "X".toList <:+: (scriptText "X").toList ∧
     readFS ((generate_script envAll "X" w0).2).fs (SCRIPT_PATH envAll) =
       some (FileData.text (scriptText "X"))) :=
  ⟨by decide, claim_C2 envAll "X" w0 (by decide)⟩

/-- Claim C3: with all four credential sets absent (unset or empty), the
pipeline fails inside `fetch_trending_topic` whatever the trend-source
selector: `main` returns an error, the file store is untouched, and the
trace gains only the fetch-stage call event — no later stage runs and no
file is written. -/
theorem claim_C3 (env : Env) (w : World)
    (h1 : falsy env.OPENAI_API_KEY = true)
    (h2 : falsy env.PERPLEXITY_API_KEY = true)
    (h3 : falsy env.HEYGEN_API_KEY = true)
    (h4 : falsy env.FLEXCLIP_API_KEY = true)
    (h5 : falsy env.IG_USERNAME = true)
    (h6 : falsy env.IG_PASSWORD = true) :
    ∃ e, Bot.main env w =
      (Except.error e,
       w.log (Ev.callFetch (getenvD env.TREND_SOURCE "chatgpt")
         env.TREND_REGION)) := by
  unfold Bot.main fetch_trending_topic
  by_cases hc : getenvD env.TREND_SOURCE "chatgpt" = "chatgpt"
  · exact ⟨Err.runtimeError
      "Missing OPENAI_API_KEY for ChatGPT trending topic fetch.",
      by simp [hc, CHATGPT_API_KEY, h1]⟩
  · by_cases hp : getenvD env.TREND_SOURCE "chatgpt" = "perplexity"
    · exact ⟨Err.runtimeError
        "Missing PERPLEXITY_API_KEY for Perplexity trending topic fetch.",
        by simp [hc, hp, PERPLEXITY_API_KEY, h2]⟩
    · exact ⟨Err.valueError
        "source must be \x27chatgpt\x27 or \x27perplexity\x27",
        by simp [hc, hp]⟩

/-- Witness for C3 at the all-unset environment. -/
theorem claim_C3_witness :
    ∃ e, Bot.main env0 w0 =
      (Except.error e,
       w0.log (Ev.callFetch (getenvD env0.TREND_SOURCE "chatgpt")
         env0.TREND_REGION)) :=
  claim_C3 env0 w0 (by decide) (by decide) (by decide) (by decide)
    (by decide) (by decide)

/-- Claim C4: with both Instagram credentials set and the video file
present, `post_to_instagram` returns the success record and echoes the
input path back unchanged in its payload. -/
theorem claim_C4 (env : Env) (video_path caption : String) (w : World)
    (h1 : falsy (INSTAGRAM_USERNAME env) = false)
    (h2 : falsy (INSTAGRAM_PASSWORD env) = false)
    (h3 : ∃ d, readFS w.fs video_path = some d) :
    (post_to_instagram env video_path caption w).1 =
      Except.ok
        { ok := true, message := "Simulated upload complete",
          path := video_path } := by
  simp [post_to_instagram, h1, h2]

/-- Witness for C4 at a concrete environment, caption and existing
file. -/
theorem claim_C4_witness :
    (falsy (INSTAGRAM_USERNAME envAll) = false ∧
     falsy (INSTAGRAM_PASSWORD envAll) = false ∧
     readFS wFile.fs "v.mp4" = some (FileData.bin fakeMp4Data)) ∧
    (post_to_instagram envAll "v.mp4" "my caption" wFile).1 =
      Except.ok
        { ok := true, message := "Simulated upload complete",
          path := "v.mp4" } :=
  ⟨⟨by decide, by decide, by decide⟩,
   claim_C4 envAll "v.mp4" "my caption" wFile (by decide) (by decide)
     ⟨FileData.bin fakeMp4Data, by decide⟩⟩

/-- Claim C5: a second pipeline run under the same configuration
overwrites the script and video files rather than appending: after two
consecutive runs, each output file's contents equal those after a single
run. -/
theorem claim_C5 (env : Env) (w : World)
    (ho : falsy env.OPENAI_API_KEY = false)
    (hh : falsy env.HEYGEN_API_KEY = false)
    (hu : falsy env.IG_USERNAME = false)
    (hp : falsy env.IG_PASSWORD = false)
    (hs : env.TREND_SOURCE = none)
    (hv : env.VIDEO_PROVIDER = none) :
    readFS (Bot.main env (Bot.main env w).2).2.fs (SCRIPT_PATH env) =
      readFS (Bot.main env w).2.fs (SCRIPT_PATH env) ∧
    readFS (Bot.main env (Bot.main env w).2).2.fs (VIDEO_PATH env) =
      readFS (Bot.main env w).2.fs (VIDEO_PATH env) := by
  have hb : (SCRIPT_PATH env == VIDEO_PATH env) = false :=
    beq_eq_false_iff_ne.mpr (script_ne_video env)
  have hb2 : (VIDEO_PATH env == SCRIPT_PATH env) = false :=
    beq_eq_false_iff_ne.mpr (Ne.symm (script_ne_video env))
  simp [Bot.main, fetch_trending_topic, generate_script,
    create_video_from_script, post_to_instagram, hs, hv, ho, hh, hu, hp,
    CHATGPT_API_KEY, OPENAI_API_KEY, HEYGEN_API_KEY, INSTAGRAM_USERNAME,
    INSTAGRAM_PASSWORD, getenvD, readFS, writeFS, World.write, World.log,
    List.lookup, List.filter, bne, hb, hb2]

/-- Witness for C5 at a concrete, fully credentialed configuration. -/
theorem claim_C5_witness :
    readFS (Bot.main envAll (Bot.main envAll w0).2).2.fs
        (SCRIPT_PATH envAll) =
      readFS (Bot.main envAll w0).2.fs (SCRIPT_PATH envAll) ∧
    readFS (Bot.main envAll (Bot.main envAll w0).2).2.fs
        (VIDEO_PATH envAll) =
      readFS (Bot.main envAll w0).2.fs (VIDEO_PATH envAll) :=
  claim_C5 envAll w0 (by decide) (by decide) (by decide) (by decide)
    (by decide) (by decide)

set_option maxRecDepth 8000 in
/-- Counterexample to C6 as stated: at the topic actually produced by the
chatgpt stub, the generated narration is 68 words, not between 115 and
150. -/
theorem claim_C6_counterexample :
    (generate_script envAll chatgptTopic w0).1 =
      Except.ok (scriptText chatgptTopic) ∧
    wordCount (scriptText chatgptTopic) = 68 ∧
    ¬ 115 ≤ wordCount (scriptText chatgptTopic) := by
  refine ⟨rfl, by decide, by decide⟩

set_option maxRecDepth 8000 in
/-- Claim C6 (amended): the stub returns the fixed placeholder template
with the topic spliced in; for the two topics the pipeline can actually
produce, the narration is 68 resp. 70 words — well below the 115–150-word
target, which describes the intended API output, not the placeholder. -/
theorem claim_C6 :
    (generate_script envAll chatgptTopic w0).1 =
      Except.ok (scriptText chatgptTopic) ∧
    wordCount (scriptText chatgptTopic) = 68 ∧
    (generate_script envAll perplexityTopic w0).1 =
      Except.ok (scriptText perplexityTopic) ∧
    wordCount (scriptText perplexityTopic) = 70 := by
  refine ⟨rfl, by decide, rfl, by decide⟩

set_option maxRecDepth 8000 in
/-- Counterexample to C7 as stated: two fully credentialed runs differing
only in the topic source hand the publisher identical video-stage output
(same path argument, identical video file contents) yet different caption
arguments — the caption is derived from the stage-1 topic, so the
publisher's input is not solely the video stage's output. -/
theorem claim_C7_counterexample :
    postPaths (Bot.main envChat w0).2.events =
      postPaths (Bot.main envPerp w0).2.events ∧
    readFS (Bot.main envChat w0).2.fs (VIDEO_PATH envChat) =
      readFS (Bot.main envPerp w0).2.fs (VIDEO_PATH envPerp) ∧
    postCaptions (Bot.main envChat w0).2.events ≠
      postCaptions (Bot.main envPerp w0).2.events ∧
    postCaptions (Bot.main envChat w0).2.events =
      [captionFor chatgptTopic] ∧
    postCaptions (Bot.main envPerp w0).2.events =
      [captionFor perplexityTopic] := by
  refine ⟨rfl, rfl, by decide, rfl, rfl⟩

/-- Claim C7 (amended): chaining is strictly sequential stage to stage —
the script generator's input is the topic stage's output, the video
stage's input is the script stage's output, and the publisher receives
the video stage's path — but the publisher additionally receives a
caption built from the stage-1 topic, so its input is not solely the
video stage's output. -/
theorem claim_C7 (env : Env) (w : World)
    (ho : falsy env.OPENAI_API_KEY = false)
    (hh : falsy env.HEYGEN_API_KEY = false)
    (hu : falsy env.IG_USERNAME = false)
    (hp : falsy env.IG_PASSWORD = false)
    (hs : env.TREND_SOURCE = none)
    (hv : env.VIDEO_PROVIDER = none) :
    (Bot.main env w).2.events = w.events ++
      [Ev.callFetch "chatgpt" env.TREND_REGION,
       Ev.callGen chatgptTopic,
       Ev.fwrite (SCRIPT_PATH env) (FileData.text (scriptText chatgptTopic)),
       Ev.callVideo (scriptText chatgptTopic) "heygen",
       Ev.fwrite (VIDEO_PATH env) (FileData.bin fakeMp4Data),
       Ev.callPost (VIDEO_PATH env) (captionFor chatgptTopic)] := by
  simp [Bot.main, fetch_trending_topic, generate_script,
    create_video_from_script, post_to_instagram, hs, hv, ho, hh, hu, hp,
    CHATGPT_API_KEY, OPENAI_API_KEY, HEYGEN_API_KEY, INSTAGRAM_USERNAME,
    INSTAGRAM_PASSWORD, getenvD, World.write, World.log, captionFor]

/-- Witness for C7 (amended) at a concrete configuration. -/
theorem claim_C7_witness :
    (Bot.main envAll w0).2.events = w0.events ++
      [Ev.callFetch "chatgpt" envAll.TREND_REGION,
       Ev.callGen chatgptTopic,
       Ev.fwrite (SCRIPT_PATH envAll)
         (FileData.text (scriptText chatgptTopic)),
       Ev.callVideo (scriptText chatgptTopic) "heygen",
       Ev.fwrite (VIDEO_PATH envAll) (FileData.bin fakeMp4Data),
       Ev.callPost (VIDEO_PATH envAll) (captionFor chatgptTopic)] :=
  claim_C7 envAll w0 (by decide) (by decide) (by decide) (by decide)
    (by decide) (by decide)

/-- Claim C8: any source selector other than `"chatgpt"` and
`"perplexity"` makes `fetch_trending_topic` raise `ValueError`, and any
provider other than `"heygen"` and `"flexclip"` makes
`create_video_from_script` raise `ValueError` — for every environment,
so independently of which credentials are set, with no file write. -/
theorem claim_C8 (env : Env) (w : World) (source provider s : String)
    (region : Option String)
    (hs1 : source ≠ "chatgpt") (hs2 : source ≠ "perplexity")
    (hp1 : provider ≠ "heygen") (hp2 : provider ≠ "flexclip") :
    fetch_trending_topic env source region w =
      (Except.error (Err.valueError
        "source must be \x27chatgpt\x27 or \x27perplexity\x27"),
       w.log (Ev.callFetch source region)) ∧
    create_video_from_script env s provider w =
      (Except.error (Err.valueError
        "provider must be \x27heygen\x27 or \x27flexclip\x27"),
       w.log (Ev.callVideo s provider)) := by
  constructor
  · simp [fetch_trending_topic, hs1, hs2]
  · simp [create_video_from_script, hp1, hp2]

/-- Witness for C8 at concrete unknown selectors, under the fully
credentialed environment (credentials do not matter). -/
theorem claim_C8_witness :
    fetch_trending_topic envAll "banana" none w0 =
      (Except.error (Err.valueError
        "source must be \x27chatgpt\x27 or \x27perplexity\x27"),
       w0.log (Ev.callFetch "banana" none)) ∧
    create_video_from_script envAll "S" "sora" w0 =
      (Except.error (Err.valueError
        "provider must be \x27heygen\x27 or \x27flexclip\x27"),
       w0.log (Ev.callVideo "S" "sora")) :=
  claim_C8 envAll w0 "banana" "sora" "S" none (by decide) (by decide)
    (by decide) (by decide)

/-- Claim C9: the video file contents are independent of the narration:
for any two script strings and a fixed provider whose credential is set,
`create_video_from_script` writes the same placeholder bytes and returns
the same path `VIDEO_PATH`. -/
theorem claim_C9 (env : Env) (s1 s2 : String) (w1 w2 : World) :
    (falsy (HEYGEN_API_KEY env) = false →
      (create_video_from_script env s1 "heygen" w1).1 =
        Except.ok (VIDEO_PATH env) ∧
      (create_video_from_script env s2 "heygen" w2).1 =
        Except.ok (VIDEO_PATH env) ∧
      readFS (create_video_from_script env s1 "heygen" w1).2.fs
          (VIDEO_PATH env) =
        readFS (create_video_from_script env s2 "heygen" w2).2.fs
          (VIDEO_PATH env) ∧
      readFS (create_video_from_script env s1 "heygen" w1).2.fs
          (VIDEO_PATH env) = some (FileData.bin fakeMp4Data)) ∧
    (falsy (FLEXCLIP_API_KEY env) = false →
      (create_video_from_script env s1 "flexclip" w1).1 =
        Except.ok (VIDEO_PATH env) ∧
      (create_video_from_script env s2 "flexclip" w2).1 =
        Except.ok (VIDEO_PATH env) ∧
      readFS (create_video_from_script env s1 "flexclip" w1).2.fs
          (VIDEO_PATH env) =
        readFS (create_video_from_script env s2 "flexclip" w2).2.fs
          (VIDEO_PATH env) ∧
      readFS (create_video_from_script env s1 "flexclip" w1).2.fs
          (VIDEO_PATH env) = some (FileData.bin fakeMp4Data)) := by
  constructor
  · intro h
    refine ⟨?_, ?_, ?_, ?_⟩ <;>
      simp [create_video_from_script, h, readFS, writeFS, World.write,
        List.lookup]
  · intro h
    refine ⟨?_, ?_, ?_, ?_⟩ <;>
      simp [create_video_from_script, h, readFS, writeFS, World.write,
        List.lookup]

/-- Witness for C9 at two distinct scripts and worlds. -/
theorem claim_C9_witness :
    ((create_video_from_script envAll "script A" "heygen" w0).1 =
        Except.ok (VIDEO_PATH envAll) ∧
      (create_video_from_script envAll "totally different" "heygen" wFile).1 =
        Except.ok (VIDEO_PATH envAll) ∧
      readFS (create_video_from_script envAll "script A" "heygen" w0).2.fs
          (VIDEO_PATH envAll) =
        readFS (create_video_from_script envAll "totally different" "heygen"
            wFile).2.fs
          (VIDEO_PATH envAll) ∧
      readFS (create_video_from_script envAll "script A" "heygen" w0).2.fs
          (VIDEO_PATH envAll) = some (FileData.bin fakeMp4Data)) ∧
    ((create_video_from_script envAll "script A" "flexclip" w0).1 =
        Except.ok (VIDEO_PATH envAll) ∧
      (create_video_from_script envAll "totally different" "flexclip"
          wFile).1 =
        Except.ok (VIDEO_PATH envAll) ∧
      readFS (create_video_from_script envAll "script A" "flexclip" w0).2.fs
          (VIDEO_PATH envAll) =
        readFS (create_video_from_script envAll "totally different" "flexclip"
            wFile).2.fs
          (VIDEO_PATH envAll) ∧
      readFS (create_video_from_script envAll "script A" "flexclip" w0).2.fs
          (VIDEO_PATH envAll) = some (FileData.bin fakeMp4Data)) :=
  ⟨(claim_C9 envAll "script A" "totally different" w0 wFile).1 (by decide),
   (claim_C9 envAll "script A" "totally different" w0 wFile).2 (by decide)⟩

/-- Claim C10: `post_to_instagram` never reads or checks the file at
`video_path`: with both Instagram credentials set, for every path —
whether or not any file exists there — it returns the `ok := true`
success record and the resulting world has the same file store, gaining
only the call event (no read is even representable: the stub's upload is
commented out). -/
theorem claim_C10 (env : Env) (video_path caption : String) (w : World)
    (hu : falsy (INSTAGRAM_USERNAME env) = false)
    (hp : falsy (INSTAGRAM_PASSWORD env) = false) :
    post_to_instagram env video_path caption w =
      (Except.ok
        { ok := true, message := "Simulated upload complete",
          path := video_path },
       w.log (Ev.callPost video_path caption)) := by
  simp [post_to_instagram, hu, hp]

/-- Witness for C10 at a path with no file behind it. -/
theorem claim_C10_witness :
    readFS w0.fs "no_such_file.mp4" = none ∧
    post_to_instagram envAll "no_such_file.mp4" "cap" w0 =
      (Except.ok
        { ok := true, message := "Simulated upload complete",
          path := "no_such_file.mp4" },
       w0.log (Ev.callPost "no_such_file.mp4" "cap")) :=
  ⟨by decide, claim_C10 envAll "no_such_file.mp4" "cap" w0 (by decide)
    (by decide)⟩
